import Mathlib

/-!
Shallow embedding of the QQ channel adapter core of the openclaw repository
(account resolution, WebSocket monitor state machine, inbound message parsing,
message-context building, reply dispatch and outbound send routing, probe),
together with theorems settling the specification claims about it.

Embedding conventions:
* TypeScript optional fields (`f?: T`) become `Option T`; an absent key is `none`.
* JavaScript string truthiness (`if (s)`) is `s ≠ ""` on a present string;
  number truthiness is `n ≠ 0`.  `String(n)` is `toString n`.
* Effects are passed explicitly: the process environment, `fs.readFileSync`
  (`none` models a thrown read error) and the routing collaborators that live
  outside this source slice are fields of explicit environment structures, so
  theorems quantify over all their behaviours.
* `async` functions whose awaited calls are modelled by environment outcomes
  become pure functions of those outcomes.
-/

namespace OpenClawQQ

/-- JavaScript truthiness of a possibly-absent string (`undefined` and `""` are falsy). -/
def strTruthy : Option String → Bool
  | some s => s ≠ ""
  | none => false

/-- JavaScript `a || b` where `a` is a possibly-absent string: `a` when present and
non-empty, otherwise `b`. -/
def jsOrString (a : Option String) (b : String) : String :=
  match a with
  | some s => if s ≠ "" then s else b
  | none => b

/-- JS `s.trim()`: drop whitespace from both ends, modelled structurally on the
character list (JS trims Unicode whitespace; `Char.isWhitespace` covers the
ASCII subset, the embedding convention for this development). -/
def jsTrim (s : String) : String :=
  String.mk (((s.data.dropWhile Char.isWhitespace).reverse.dropWhile
    Char.isWhitespace).reverse)

/-! ## Configuration model (src/src/config/types.qq.ts)

`QQAccountConfig` keeps exactly the fields the embedded core reads. -/

/-- Per-account QQ configuration fields consumed by the core (`types.qq.ts`). -/
structure QQAccountConfig where
  name : Option String := none
  enabled : Option Bool := none
  httpUrl : Option String := none
  wsUrl : Option String := none
  accessToken : Option String := none
  tokenFile : Option String := none
  reconnectIntervalMs : Option Nat := none
deriving Repr, DecidableEq

/-- The `channels.qq` section: base account fields plus the optional `accounts` record
(`QQConfig = { accounts? } & QQAccountConfig`).  The record is a key/value list. -/
structure QQConfig where
  base : QQAccountConfig := {}
  accounts : Option (List (String × QQAccountConfig)) := none
deriving Repr, DecidableEq

/-- The slice of `OpenClawConfig` read by the QQ core: `cfg.channels.qq`. -/
structure OpenClawConfig where
  qq : Option QQConfig := none
deriving Repr, DecidableEq

/-- External collaborators of `src/src/qq/accounts.ts` passed explicitly:
the process environment variable `QQ_ACCESS_TOKEN`, the filesystem read
(`none` models `fs.readFileSync` throwing), and the routing-layer functions
`normalizeAccountId` / `DEFAULT_ACCOUNT_ID` (routing/session-key.ts) and
`listBoundAccountIds` / `resolveDefaultAgentBoundAccountId` (routing/bindings.ts),
which are outside this source slice; theorems hold for every behaviour of these. -/
structure AccountsEnv where
  envAccessToken : Option String := none
  readFile : String → Option String := fun _ => none
  normalizeAccountId : Option String → String := fun a => a.getD "default"
  defaultAccountId : String := "default"
  boundAccountIds : List String := []
  defaultAgentBoundAccountId : Option String := none

/-- Provenance of a resolved access token (`accounts.ts`). -/
inductive TokenSource
  | env
  | tokenFile
  | config
  | none
deriving Repr, DecidableEq

/-- Embedding of `listConfiguredAccountIds` (accounts.ts lines 24-33): normalized keys of the
`accounts` record, skipping empty keys, deduplicated in first-occurrence order
(a JS `Set` preserves insertion order). -/
def listConfiguredAccountIds (E : AccountsEnv) (cfg : OpenClawConfig) : List String :=
  match cfg.qq.bind (·.accounts) with
  | Option.none => []
  | some accounts =>
    (accounts.filterMap fun kv =>
        if kv.fst = "" then Option.none else some (E.normalizeAccountId (some kv.fst))).foldl
      (fun acc x => if x ∈ acc then acc else acc ++ [x]) []

/-- Embedding of `listQQAccountIds` (accounts.ts lines 35-42): union of configured ids and
routing-bound ids; singleton default list when empty, otherwise sorted
(`localeCompare` is modelled as code-point string order). -/
def listQQAccountIds (E : AccountsEnv) (cfg : OpenClawConfig) : List String :=
  let ids := (listConfiguredAccountIds E cfg ++ E.boundAccountIds).foldl
    (fun acc x => if x ∈ acc then acc else acc ++ [x]) []
  if ids = [] then [E.defaultAccountId]
  else ids.mergeSort (fun a b => a ≤ b)

/-- Embedding of `resolveDefaultQQAccountId` (accounts.ts lines 44-50). -/
def resolveDefaultQQAccountId (E : AccountsEnv) (cfg : OpenClawConfig) : String :=
  if strTruthy E.defaultAgentBoundAccountId then E.defaultAgentBoundAccountId.getD ""
  else
    let ids := listQQAccountIds E cfg
    if E.defaultAccountId ∈ ids then E.defaultAccountId
    else ids.headD E.defaultAccountId

/-- Embedding of `resolveAccountConfig` (accounts.ts lines 52-63): direct key lookup first,
then a lookup under `normalizeAccountId` applied to both sides. -/
def resolveAccountConfig (E : AccountsEnv) (cfg : OpenClawConfig) (accountId : String) :
    Option QQAccountConfig :=
  match cfg.qq.bind (·.accounts) with
  | Option.none => Option.none
  | some accounts =>
    match accounts.find? (fun kv => kv.fst = accountId) with
    | some kv => some kv.snd
    | Option.none =>
      let normalized := E.normalizeAccountId (some accountId)
      (accounts.find? fun kv => E.normalizeAccountId (some kv.fst) = normalized).map (·.snd)

/-- Field-wise JS object spread `{ ...base, ...account }`: a field present on the
account overrides the base. -/
def mergeConfigFields (base account : QQAccountConfig) : QQAccountConfig where
  name := account.name <|> base.name
  enabled := account.enabled <|> base.enabled
  httpUrl := account.httpUrl <|> base.httpUrl
  wsUrl := account.wsUrl <|> base.wsUrl
  accessToken := account.accessToken <|> base.accessToken
  tokenFile := account.tokenFile <|> base.tokenFile
  reconnectIntervalMs := account.reconnectIntervalMs <|> base.reconnectIntervalMs

/-- Embedding of `mergeQQAccountConfig` (accounts.ts lines 65-71): base `channels.qq` fields
(without `accounts`) overridden by the per-account config. -/
def mergeQQAccountConfig (E : AccountsEnv) (cfg : OpenClawConfig) (accountId : String) :
    QQAccountConfig :=
  let base := (cfg.qq.map (·.base)).getD {}
  let account := (resolveAccountConfig E cfg accountId).getD {}
  mergeConfigFields base account

/-- The token-file step of `resolveQQAccessToken` (accounts.ts lines 84-94):
the trimmed file contents when `tokenFile` is truthy, the read succeeds and the
trimmed contents are non-empty; `none` otherwise (read failures are
swallowed). -/
def fileTokenOf (E : AccountsEnv) (merged : QQAccountConfig) : Option String :=
  match merged.tokenFile with
  | some p =>
    if p ≠ "" then
      match (E.readFile p).map (jsTrim ·) with
      | some t => if t ≠ "" then some t else Option.none
      | Option.none => Option.none
    else Option.none
  | Option.none => Option.none

/-- Embedding of `resolveQQAccessToken` (accounts.ts lines 73-101): env override, then token
file (read failures and blank contents fall through), then inline config token,
then none with the empty string. -/
def resolveQQAccessToken (E : AccountsEnv) (cfg : OpenClawConfig)
    (accountId : Option String) : String × TokenSource :=
  let envToken := E.envAccessToken.map (jsTrim ·)
  if envToken.getD "" ≠ "" then (envToken.getD "", TokenSource.env)
  else
    let merged := mergeQQAccountConfig E cfg (accountId.getD E.defaultAccountId)
    match fileTokenOf E merged with
    | some t => (t, TokenSource.tokenFile)
    | Option.none =>
      match merged.accessToken.map (jsTrim ·) with
      | some t => if t ≠ "" then (t, TokenSource.config) else ("", TokenSource.none)
      | Option.none => ("", TokenSource.none)

/-- A fully resolved QQ account (`ResolvedQQAccount` in accounts.ts). -/
structure ResolvedQQAccount where
  accountId : String
  enabled : Bool
  name : Option String
  httpUrl : String
  wsUrl : Option String
  accessToken : String
  tokenSource : TokenSource
  config : QQAccountConfig
deriving Repr, DecidableEq

/-- The inner `resolve` closure of `resolveQQAccount` (accounts.ts lines 110-137);
`baseEnabled` is the value captured from the enclosing scope. -/
def resolveQQAccountFor (E : AccountsEnv) (cfg : OpenClawConfig) (baseEnabled : Bool)
    (accountId : String) : ResolvedQQAccount :=
  let merged := mergeQQAccountConfig E cfg accountId
  let accountEnabled := merged.enabled ≠ some false
  let enabled := baseEnabled && accountEnabled
  let tokenResolution := resolveQQAccessToken E cfg (some accountId)
  let httpUrl := jsOrString (merged.httpUrl.map (jsTrim ·)) "http://localhost:3000"
  let wsUrl := merged.wsUrl.map (jsTrim ·)
  { accountId := accountId
    enabled := enabled
    name := match merged.name.map (jsTrim ·) with
      | some n => if n ≠ "" then some n else Option.none
      | Option.none => Option.none
    httpUrl := httpUrl
    wsUrl := wsUrl
    accessToken := tokenResolution.fst
    tokenSource := tokenResolution.snd
    config := merged }

/-- Embedding of `resolveQQAccount` (accounts.ts lines 103-149): resolve the requested (or
normalized default) id; when no explicit id was requested and the primary
resolution looks unconfigured, fall back to the configured default account id
if that differs and carries a token. -/
def resolveQQAccount (E : AccountsEnv) (cfg : OpenClawConfig)
    (accountId : Option String) : ResolvedQQAccount :=
  let hasExplicitAccountId := strTruthy (accountId.map (jsTrim ·))
  let baseEnabled := (cfg.qq.bind fun q => q.base.enabled) ≠ some false
  let primary := resolveQQAccountFor E cfg baseEnabled (E.normalizeAccountId accountId)
  if hasExplicitAccountId then primary
  else if primary.tokenSource ≠ TokenSource.none ∨ primary.httpUrl ≠ "http://localhost:3000" then
    primary
  else
    let fallbackId := resolveDefaultQQAccountId E cfg
    if fallbackId = primary.accountId then primary
    else
      let fallback := resolveQQAccountFor E cfg baseEnabled fallbackId
      if fallback.tokenSource ≠ TokenSource.none then fallback else primary

/-! ## Event monitor state machine (src/src/qq/index.ts, `monitorQQProvider`)

The monitor keeps three pieces of local state: the `isClosing` flag, the
abort-signal state, and the pending reconnect `setTimeout` handle.  The handle
is modelled as the delay it was scheduled with (`none` = no live pending
timer; the source keeps a stale handle after `clearTimeout`, but clearing or
firing a timer makes it inert, which is what `none` denotes).  `scheduled`
is a ghost counter of how many reconnect attempts have been scheduled. -/

/-- Mutable local state of one `monitorQQProvider` instance. -/
structure MonitorState where
  isClosing : Bool := false
  aborted : Bool := false
  reconnectTimer : Option Nat := none
  scheduled : Nat := 0
deriving Repr, DecidableEq

/-- The externally triggered transitions of a monitor instance: the socket
`close` event, a call to the returned `close()`, the abort-signal listener
firing, and a pending reconnect timer firing (running `connect`). -/
inductive MonitorEvent
  | socketClose
  | closeCall
  | abortFire
  | timerFire
deriving Repr, DecidableEq

/-- One monitor transition, translated from the handlers in `monitorQQProvider`:
* socket `close` handler (index.ts lines 105-115): schedule one reconnect after
  `account.config.reconnectIntervalMs ?? 5000` unless closing or aborted;
* `close()` (lines 140-148) and the abort listener (lines 129-137): set
  `isClosing`, clear any pending timer, close the socket;
* a firing timer consumes itself and runs `connect`, which returns immediately
  when closing or aborted (line 75). -/
def monitorStep (config : QQAccountConfig) (s : MonitorState) : MonitorEvent → MonitorState
  | MonitorEvent.socketClose =>
    if s.isClosing = false ∧ s.aborted = false then
      { s with reconnectTimer := some (config.reconnectIntervalMs.getD 5000)
               scheduled := s.scheduled + 1 }
    else s
  | MonitorEvent.closeCall => { s with isClosing := true, reconnectTimer := none }
  | MonitorEvent.abortFire => { s with isClosing := true, aborted := true, reconnectTimer := none }
  | MonitorEvent.timerFire =>
    match s.reconnectTimer with
    | some _ => { s with reconnectTimer := none }
    | Option.none => s

/-- Run a monitor instance through a sequence of events. -/
def monitorRun (config : QQAccountConfig) (s : MonitorState) (evs : List MonitorEvent) :
    MonitorState :=
  evs.foldl (monitorStep config) s

/-! ## Wire events and the inbound message parser
(src/src/qq/types.ts and the message-context source file) -/

/-- A JSON value sitting in a segment's `data.text` slot: a string, or some
non-string value (number, object, ...), or `nonString` for anything else. -/
inductive WireTextField
  | str (s : String)
  | nonString
deriving Repr, DecidableEq

/-- A JSON value sitting in a reply segment's `data.id` slot: the source accepts
strings and numbers and ignores anything else. -/
inductive WireIdField
  | str (s : String)
  | num (n : Int)
  | other
deriving Repr, DecidableEq

/-- The `data` object of a wire segment, loose like the wire: both interpreted
keys may be absent or hold unexpected shapes. -/
structure WireSegData where
  text : Option WireTextField := none
  id : Option WireIdField := none
deriving Repr, DecidableEq

/-- A wire message segment `{ type, data? }`; `data = none` models an absent or
non-object `data` member. -/
structure WireSegment where
  type : String
  data : Option WireSegData := none
deriving Repr, DecidableEq

/-- A wire `message` body: flat string or segment array. -/
inductive WireMessage
  | str (s : String)
  | segs (l : List WireSegment)
deriving Repr, DecidableEq

/-- The wire `sender` object; every field may be missing on the wire. -/
structure WireSender where
  user_id : Option Int := none
  nickname : Option String := none
  card : Option String := none
deriving Repr, DecidableEq

/-- A wire message event as consumed by the parser (`QQMessageEvent` in
types.ts), loosened where the parser is defensive: `sender` may be absent
(the WebSocket feed casts unvalidated JSON to this type). -/
structure QQMessageEvent where
  message_type : String
  message_id : Int
  user_id : Int
  group_id : Option Int := none
  message : WireMessage
  sender : Option WireSender := none
  time : Int
deriving Repr, DecidableEq

/-- Embedding of `buildQQGroupPeerId` (message-context source, lines 145-151): append
`:userId` only when the sender user id is truthy (present and non-zero). -/
def buildQQGroupPeerId (groupId : Int) (userId : Option Int) : String :=
  let baseId := toString groupId
  match userId with
  | some u => if u ≠ 0 then baseId ++ ":" ++ toString u else baseId
  | Option.none => baseId

/-- Embedding of `resolveQQPeerId` (lines 153-164): group addressing when `message_type`
is `group` and `group_id` is truthy, otherwise direct addressing by the
top-level `user_id`.  Second component is `isGroup`. -/
def resolveQQPeerId (event : QQMessageEvent) : String × Bool :=
  match event.group_id with
  | some g =>
    if event.message_type = "group" ∧ g ≠ 0 then
      (buildQQGroupPeerId g (event.sender.bind (·.user_id)), true)
    else (toString event.user_id, false)
  | Option.none => (toString event.user_id, false)

/-- Embedding of `extractTextFromMessage` (lines 166-180): a flat string verbatim; otherwise
the concatenation, in order, of the `data.text` of every `text`-typed segment
whose `data` is an object, with non-string `text` values contributing `""`. -/
def extractTextFromMessage : WireMessage → String
  | WireMessage.str s => s
  | WireMessage.segs l =>
    String.join
      ((l.filter fun seg => seg.type = "text" && seg.data.isSome).map fun seg =>
        match seg.data with
        | some d =>
          match d.text with
          | some (WireTextField.str t) => t
          | _ => ""
        | Option.none => "")

/-- Embedding of `extractReplyToId` (lines 182-193): the `id` of the first `reply`-typed
segment when it is a string or a number, else `none`. -/
def extractReplyToId (l : List WireSegment) : Option String :=
  match l.find? (fun seg => seg.type = "reply") with
  | some seg =>
    match seg.data with
    | some d =>
      match d.id with
      | some (WireIdField.str s) => some s
      | some (WireIdField.num n) => some (toString n)
      | _ => Option.none
    | Option.none => Option.none
  | Option.none => Option.none

/-- The normalized inbound message (`QQInboundMessage` in types.ts; the `raw`
back-pointer to the wire event is omitted from the embedding). -/
structure QQInboundMessage where
  channel : String
  accountId : String
  chatType : String
  peerId : String
  senderId : String
  senderName : String
  text : String
  messageId : String
  timestamp : Int
  replyToId : Option String := none
  groupId : Option String := none
deriving Repr, DecidableEq

/-- Embedding of `parseQQInboundMessage` (lines 195-214).  The source reads
`event.sender.nickname` without optional chaining, so an absent `sender`
object raises a `TypeError`; the embedding returns `Except.error` there and
`Except.ok` with the constructed record everywhere else. -/
def parseQQInboundMessage (event : QQMessageEvent) (accountId : String) :
    Except String QQInboundMessage :=
  let pc := resolveQQPeerId event
  let text := extractTextFromMessage event.message
  let replyToId := match event.message with
    | WireMessage.segs l => extractReplyToId l
    | WireMessage.str _ => Option.none
  match event.sender with
  | Option.none =>
    Except.error "TypeError: Cannot read properties of undefined (reading nickname)"
  | some sender =>
    Except.ok
      { channel := "qq"
        accountId := accountId
        chatType := if pc.snd then "group" else "direct"
        peerId := pc.fst
        senderId := toString event.user_id
        senderName := jsOrString sender.nickname (jsOrString sender.card (toString event.user_id))
        text := text
        messageId := toString event.message_id
        timestamp := event.time * 1000
        replyToId := replyToId
        groupId := match event.group_id with
          | some g => if g ≠ 0 then some (toString g) else Option.none
          | Option.none => Option.none }

/-! ## Outbound send layer (send source file)

The HTTP POST itself is outside the embedding; each send function is modelled
as the request it builds: endpoint name, target-id body field, and the ordered
segment list. -/

/-- An outbound message segment as constructed by the send functions. -/
inductive QQSendSegment
  | reply (id : String)
  | image (file : String)
  | text (t : String)
deriving Repr, DecidableEq

/-- The HTTP request a send function issues: endpoint (`send_private_msg` or
`send_group_msg`), the `user_id`/`group_id` body field, and the segments. -/
structure QQSendRequest where
  endpoint : String
  targetId : String
  message : List QQSendSegment
deriving Repr, DecidableEq

/-- Segment construction common to `sendPrivateMessageQQ` and
`sendGroupMessageQQ` (send source, lines 58-70 and 96-108): optional reply
reference, then optional image, then the text when non-empty. -/
def buildSendSegments (message : String) (replyToId mediaUrl : Option String) :
    List QQSendSegment :=
  (match replyToId with
    | some id => if id ≠ "" then [QQSendSegment.reply id] else []
    | Option.none => []) ++
  (match mediaUrl with
    | some f => if f ≠ "" then [QQSendSegment.image f] else []
    | Option.none => []) ++
  (if message ≠ "" then [QQSendSegment.text message] else [])

/-- Embedding of `sendPrivateMessageQQ` (lines 49-85), as the request it builds. -/
def sendPrivateMessageQQ (userId message : String) (replyToId mediaUrl : Option String) :
    QQSendRequest :=
  { endpoint := "send_private_msg"
    targetId := userId
    message := buildSendSegments message replyToId mediaUrl }

/-- Embedding of `sendGroupMessageQQ` (lines 87-123), as the request it builds. -/
def sendGroupMessageQQ (groupId message : String) (replyToId mediaUrl : Option String) :
    QQSendRequest :=
  { endpoint := "send_group_msg"
    targetId := groupId
    message := buildSendSegments message replyToId mediaUrl }

/-- The regular expression test of send line 135 (`^-?\d+$`): an optional minus
sign followed by one or more ASCII digits and nothing else. -/
def isNumericTarget (target : String) : Bool :=
  let cs := target.data
  let ds := if cs.head? = some (Char.ofNat 45) then cs.tail else cs
  ds ≠ [] && ds.all (·.isDigit)

/-- JS `s.startsWith(p)`, on the character lists underlying the strings. -/
def jsStartsWith (s p : String) : Bool :=
  p.data.isPrefixOf s.data

/-- JS `s.replace(/^p/, "")`: remove one leading occurrence of `p`. -/
def stripLeading (p s : String) : String :=
  if jsStartsWith s p then String.mk (s.data.drop p.data.length) else s

/-- Embedding of `sendMessageQQ` (lines 125-144): group routing when the target starts with
`group:` or matches the bare-numeric pattern, else a private send with an
optional `user:` prefix removed. -/
def sendMessageQQ (target text : String) (replyToId mediaUrl : Option String) : QQSendRequest :=
  let isGroup := jsStartsWith target "group:" || isNumericTarget target
  if isGroup then sendGroupMessageQQ (stripLeading "group:" target) text replyToId mediaUrl
  else sendPrivateMessageQQ (stripLeading "user:" target) text replyToId mediaUrl

/-! ## Dispatch (dispatch source file, `dispatchQQMessage`)

The shared reply pipeline is external: what it does to the QQ dispatcher is a
sequence of callback invocations (`deliver`, `onSkip`, `onError`), each
`deliver` bundled with the result its `sendMessageQQ` call would produce
(`none` models a thrown send, which `deliverQQReply` catches into `null`). -/

/-- One callback invocation made by the reply pipeline against the dispatcher
options, with the send outcome for deliveries. -/
inductive DispatchCallback
  | deliver (kind : String) (text : String) (sendResult : Option String)
  | skip (reason : String)
  | errorCb
deriving Repr, DecidableEq

/-- The `deliveryState` record of `dispatchQQMessage` (dispatch source,
lines 25-28). -/
structure DeliveryState where
  delivered : Bool := false
  skippedNonSilent : Nat := 0
deriving Repr, DecidableEq

/-- How one callback updates `deliveryState` (lines 34-49): a `final` delivery
with non-empty text sends, and a truthy returned `messageId` marks delivery;
a skip with a reason other than `silent` increments the counter. -/
def dispatchStep (st : DeliveryState) : DispatchCallback → DeliveryState
  | DispatchCallback.deliver kind text res =>
    if kind = "final" ∧ text ≠ "" then
      match res with
      | some mid => if mid ≠ "" then { st with delivered := true } else st
      | Option.none => st
    else st
  | DispatchCallback.skip reason =>
    if reason ≠ "silent" then { st with skippedNonSilent := st.skippedNonSilent + 1 } else st
  | DispatchCallback.errorCb => st

/-- The delivery state after the pipeline has invoked all its callbacks. -/
def runDispatchCallbacks (cbs : List DispatchCallback) : DeliveryState :=
  cbs.foldl dispatchStep {}

/-- Whether a callback marks a successful delivery (`final` kind, truthy text,
send returned a truthy `messageId`). -/
def isSuccessfulDelivery : DispatchCallback → Bool
  | DispatchCallback.deliver kind text (some mid) => kind = "final" && text ≠ "" && mid ≠ ""
  | _ => false

/-- Whether a callback is a skip with a non-silent reason. -/
def isNonSilentSkip : DispatchCallback → Bool
  | DispatchCallback.skip reason => reason ≠ "silent"
  | _ => false

/-- Embedding of `EMPTY_RESPONSE_FALLBACK` (dispatch source, line 8). -/
def EMPTY_RESPONSE_FALLBACK : String := "No response generated. Please try again."

/-- The post-pipeline step of `dispatchQQMessage` (lines 63-70): the fallback
send it issues to `chatId`, or `none` when no fallback is sent. -/
def dispatchQQMessageFallback (chatId : String) (cbs : List DispatchCallback) :
    Option QQSendRequest :=
  let st := runDispatchCallbacks cbs
  if st.delivered = false ∧ st.skippedNonSilent ≠ 0 then
    some (sendMessageQQ chatId EMPTY_RESPONSE_FALLBACK Option.none Option.none)
  else Option.none

/-- Embedding of `deliverQQReply` (dispatch source, lines 73-90), as the request it issues. -/
def deliverQQReply (text target : String) (replyToId : Option String) : QQSendRequest :=
  sendMessageQQ target text replyToId Option.none

/-! ## Probe (src/src/qq/probe.ts)

The two HTTP calls are modelled by their outcomes. -/

/-- The parsed identity payload `data.data` of `get_login_info`. -/
structure ProbeLoginData where
  user_id : Option Int := none
  nickname : Option String := none
deriving Repr, DecidableEq

/-- Outcome of the identity call: the fetch (or its body parse) throws, the
response is non-ok, or JSON was parsed (`none` payload models a missing
`data` member). -/
inductive ProbeLoginOutcome
  | throwErr (msg : String)
  | httpError (status : Nat) (body : String)
  | okJson (data : Option ProbeLoginData)
deriving Repr, DecidableEq

/-- Outcome of the `get_status` call: the fetch or `json()` throws, or JSON was
parsed with an optional `data.online` flag (`response.ok` is never checked). -/
inductive ProbeStatusOutcome
  | throwErr (msg : String)
  | json (online : Option Bool)
deriving Repr, DecidableEq

/-- The I/O outcomes one `probeQQ` invocation observes. -/
structure QQProbeEnv where
  login : ProbeLoginOutcome
  status : ProbeStatusOutcome
deriving Repr, DecidableEq

/-- Embedding of `QQProbeResult` (probe.ts lines 3-13). -/
inductive QQProbeResult
  | ok (selfId : Int) (nickname : String) (status : String)
  | err (error : String)
deriving Repr, DecidableEq

/-- Embedding of `probeQQ` (probe.ts lines 15-88): the identity call must succeed with a
truthy `user_id`; the status call is then made inside the same try block, so a
thrown status fetch lands in the outer catch, while a parsed status body
degrades `status` to `"online"`/`"offline"` by the truthiness of
`data.online`. -/
def probeQQ (env : QQProbeEnv) : QQProbeResult :=
  match env.login with
  | ProbeLoginOutcome.throwErr msg => QQProbeResult.err msg
  | ProbeLoginOutcome.httpError status body =>
    QQProbeResult.err ("HTTP " ++ toString status ++ ": " ++ body)
  | ProbeLoginOutcome.okJson data =>
    match data with
    | Option.none => QQProbeResult.err "Invalid response from NapCatQQ API"
    | some d =>
      match d.user_id with
      | Option.none => QQProbeResult.err "Invalid response from NapCatQQ API"
      | some uid =>
        if uid = 0 then QQProbeResult.err "Invalid response from NapCatQQ API"
        else
          match env.status with
          | ProbeStatusOutcome.throwErr msg => QQProbeResult.err msg
          | ProbeStatusOutcome.json online =>
            QQProbeResult.ok uid (d.nickname.getD "")
              (if online.getD false then "online" else "offline")

/-! ## Message context builder (message-context source, `buildQQMessageContext`)

`resolveAgentRoute` (routing/resolve-route.ts) and `resolveThreadSessionKeys`
(routing/session-key.ts) are outside this source slice and passed as abstract
collaborators; the built context is modelled by the fields the dispatcher
reads. -/

/-- The slice of `ResolvedAgentRoute` the context carries. -/
structure AgentRoute where
  sessionKey : String
  agentId : String
deriving Repr, DecidableEq

/-- Abstract routing collaborators of `buildQQMessageContext`. -/
structure ContextEnv where
  resolveAgentRoute : String → String → String → AgentRoute
  resolveThreadSessionKeys : String → Option String → String

/-- The context consumed by `dispatchQQMessage` (`QQMessageContext`);
`ctxPayload` is represented by the session key routed into it. -/
structure QQMessageContext where
  sessionKey : String
  route : AgentRoute
  chatId : String
  isGroup : Bool
  senderId : String
  senderName : String
  messageId : String
  text : String
  replyToId : Option String := none
deriving Repr, DecidableEq

/-- Embedding of `buildQQMessageContext` (message-context source, lines 216-274): peer kind
`group`/`dm` from the chat type, thread-scoped session keys for groups, and a
delivery `chatId` of `group:<peerId>` or `user:<senderId>`. -/
def buildQQMessageContext (env : ContextEnv) (message : QQInboundMessage)
    (accountId : String) : QQMessageContext :=
  let isGroup := message.chatType = "group"
  let peerKind := if isGroup then "group" else "dm"
  let route := env.resolveAgentRoute accountId peerKind message.peerId
  let sessionKey :=
    if isGroup then env.resolveThreadSessionKeys route.sessionKey message.groupId
    else route.sessionKey
  let chatId := if isGroup then "group:" ++ message.peerId else "user:" ++ message.senderId
  { sessionKey := sessionKey
    route := route
    chatId := chatId
    isGroup := isGroup
    senderId := message.senderId
    senderName := message.senderName
    messageId := message.messageId
    text := message.text
    replyToId := message.replyToId }

/-! ## Theorems -/

/-- Helper: when every readable token file yields only blank contents (or the
file is unset, unreadable or blank), the token-file step declines. -/
theorem fileTokenOf_eq_none (E : AccountsEnv) (merged : QQAccountConfig)
    (h : ∀ p, merged.tokenFile = some p → p ≠ "" →
      ((E.readFile p).map (jsTrim ·)).getD "" = "") :
    fileTokenOf E merged = Option.none := by
  cases hp : merged.tokenFile with
  | none => simp [fileTokenOf, hp]
  | some p =>
    by_cases hpe : p = ""
    · simp [fileTokenOf, hp, hpe]
    · have hblank := h p hp hpe
      cases hr : (E.readFile p).map (jsTrim ·) with
      | none => simp [fileTokenOf, hp, hpe, hr]
      | some t =>
        rw [hr] at hblank
        simp only [Option.getD_some] at hblank
        simp [fileTokenOf, hp, hpe, hr, hblank]

/-- C1: `resolveQQAccessToken` resolves with fixed precedence, first match
winning: a non-empty trimmed `QQ_ACCESS_TOKEN` environment override yields
that token with source `env`; otherwise a non-empty trimmed token read from
the merged configuration token file yields source `tokenFile` (read failures
and blank contents fall through); otherwise a non-empty trimmed inline
`accessToken` yields source `config`; otherwise the empty string with source
`none`.  Each clause carries the falsity of every higher-priority source, so
a higher-priority token is never shadowed by a lower-priority one. -/
theorem qq_token_resolution_precedence (E : AccountsEnv) (cfg : OpenClawConfig)
    (aid : Option String) :
    (∀ t, E.envAccessToken = some t → jsTrim t ≠ "" →
      resolveQQAccessToken E cfg aid = (jsTrim t, TokenSource.env)) ∧
    ((E.envAccessToken.map (jsTrim ·)).getD "" = "" →
      (∀ p t, (mergeQQAccountConfig E cfg (aid.getD E.defaultAccountId)).tokenFile = some p →
          p ≠ "" → E.readFile p = some t → jsTrim t ≠ "" →
          resolveQQAccessToken E cfg aid = (jsTrim t, TokenSource.tokenFile)) ∧
      ((∀ p, (mergeQQAccountConfig E cfg (aid.getD E.defaultAccountId)).tokenFile = some p →
          p ≠ "" → ((E.readFile p).map (jsTrim ·)).getD "" = "") →
        (∀ t, (mergeQQAccountConfig E cfg (aid.getD E.defaultAccountId)).accessToken = some t →
            jsTrim t ≠ "" →
            resolveQQAccessToken E cfg aid = (jsTrim t, TokenSource.config)) ∧
        (((mergeQQAccountConfig E cfg
              (aid.getD E.defaultAccountId)).accessToken.map (jsTrim ·)).getD "" = "" →
          resolveQQAccessToken E cfg aid = ("", TokenSource.none)))) := by
  refine ⟨?_, ?_⟩
  · intro t ht htne
    simp [resolveQQAccessToken, ht, htne]
  · intro henv
    refine ⟨?_, ?_⟩
    · intro p t hp hpne hr htne
      simp [resolveQQAccessToken, fileTokenOf, henv, hp, hpne, hr, htne]
    · intro hfile
      have hnone := fileTokenOf_eq_none E
        (mergeQQAccountConfig E cfg (aid.getD E.defaultAccountId)) hfile
      refine ⟨?_, ?_⟩
      · intro t ht htne
        simp [resolveQQAccessToken, henv, hnone, ht, htne]
      · intro hcfg
        cases hc : (mergeQQAccountConfig E cfg (aid.getD E.defaultAccountId)).accessToken with
        | none => simp [resolveQQAccessToken, henv, hnone, hc]
        | some t =>
          rw [hc] at hcfg
          simp at hcfg
          simp [resolveQQAccessToken, henv, hnone, hc, hcfg]

/-- Witness for C1: with the environment override, a readable token file and an
inline token all set, the environment override wins. -/
theorem qq_token_resolution_precedence_witness :
    resolveQQAccessToken
      { envAccessToken := some " env-tok "
        readFile := fun _ => some "file-tok"
        normalizeAccountId := fun a => a.getD "default"
        defaultAccountId := "default"
        boundAccountIds := []
        defaultAgentBoundAccountId := Option.none }
      { qq := some { base := { accessToken := some "inline-tok", tokenFile := some "/sec" } } }
      (some "default") = (jsTrim " env-tok ", TokenSource.env) :=
  (qq_token_resolution_precedence _ _ _).1 " env-tok " rfl (by decide)

/-- C2: `resolveQQAccount` prefers the fallback resolution exactly when no
explicit account id was requested, the primary (normalized-id) resolution has
token source `none` and the default `httpUrl`, the configured default account
id differs from the primary id, and the fallback resolution's token source is
not `none`; in every other case the primary resolution is returned. -/
theorem qq_account_fallback_rule (E : AccountsEnv) (cfg : OpenClawConfig)
    (aid : Option String) :
    resolveQQAccount E cfg aid =
      if strTruthy (aid.map (jsTrim ·)) = false ∧
         (resolveQQAccountFor E cfg ((cfg.qq.bind fun q => q.base.enabled) ≠ some false)
            (E.normalizeAccountId aid)).tokenSource = TokenSource.none ∧
         (resolveQQAccountFor E cfg ((cfg.qq.bind fun q => q.base.enabled) ≠ some false)
            (E.normalizeAccountId aid)).httpUrl = "http://localhost:3000" ∧
         resolveDefaultQQAccountId E cfg ≠
           (resolveQQAccountFor E cfg ((cfg.qq.bind fun q => q.base.enabled) ≠ some false)
              (E.normalizeAccountId aid)).accountId ∧
         (resolveQQAccountFor E cfg ((cfg.qq.bind fun q => q.base.enabled) ≠ some false)
            (resolveDefaultQQAccountId E cfg)).tokenSource ≠ TokenSource.none
      then resolveQQAccountFor E cfg ((cfg.qq.bind fun q => q.base.enabled) ≠ some false)
             (resolveDefaultQQAccountId E cfg)
      else resolveQQAccountFor E cfg ((cfg.qq.bind fun q => q.base.enabled) ≠ some false)
             (E.normalizeAccountId aid) := by
  unfold resolveQQAccount
  split_ifs <;> simp_all

/-- Helper: from a deliberately closed state with no live timer, every further
event sequence keeps the monitor closed, timer-free, and schedules nothing. -/
theorem monitorRun_terminal (config : QQAccountConfig) (evs : List MonitorEvent) :
    ∀ s : MonitorState, s.isClosing = true → s.reconnectTimer = Option.none →
    (monitorRun config s evs).isClosing = true ∧
    (monitorRun config s evs).reconnectTimer = Option.none ∧
    (monitorRun config s evs).scheduled = s.scheduled := by
  induction evs with
  | nil => intro s h1 h2; exact ⟨h1, h2, rfl⟩
  | cons e evs ih =>
    intro s h1 h2
    have hstep : monitorStep config s e = { s with isClosing := true, reconnectTimer := none } ∨
        monitorStep config s e =
          { s with isClosing := true, aborted := true, reconnectTimer := none } := by
      cases e <;> simp [monitorStep, h1, h2] <;>
        exact Or.inl (by cases s; simp_all)
    have hrun : monitorRun config s (e :: evs) =
        monitorRun config (monitorStep config s e) evs := rfl
    rcases hstep with h | h <;> rw [hrun, h] <;>
      exact ih _ rfl rfl

/-- C3: for every monitor instance, a socket close from a live state (neither
`close()` called nor the abort signal fired) schedules exactly one reconnect,
with delay `reconnectIntervalMs ?? 5000`; a socket close from a closing or
aborted state schedules nothing; once `close()` or the abort listener has run,
the pending timer is cancelled and no event sequence ever schedules a
reconnect again (the schedule counter is frozen at its pre-close value); and a
second `close()` is a no-op on the state. -/
theorem qq_monitor_reconnect_cancellation (config : QQAccountConfig) (s : MonitorState) :
    (s.isClosing = false → s.aborted = false →
      monitorStep config s MonitorEvent.socketClose =
        { s with reconnectTimer := some (config.reconnectIntervalMs.getD 5000)
                 scheduled := s.scheduled + 1 }) ∧
    (s.isClosing = true ∨ s.aborted = true →
      monitorStep config s MonitorEvent.socketClose = s) ∧
    (∀ evs,
      (monitorRun config (monitorStep config s MonitorEvent.closeCall) evs).reconnectTimer =
        Option.none ∧
      (monitorRun config (monitorStep config s MonitorEvent.closeCall) evs).scheduled =
        s.scheduled) ∧
    (∀ evs,
      (monitorRun config (monitorStep config s MonitorEvent.abortFire) evs).reconnectTimer =
        Option.none ∧
      (monitorRun config (monitorStep config s MonitorEvent.abortFire) evs).scheduled =
        s.scheduled) ∧
    monitorStep config (monitorStep config s MonitorEvent.closeCall) MonitorEvent.closeCall =
      monitorStep config s MonitorEvent.closeCall := by
  refine ⟨?_, ?_, ?_, ?_, ?_⟩
  · intro h1 h2
    simp [monitorStep, h1, h2]
  · intro h
    rcases h with h | h <;> simp [monitorStep, h]
  · intro evs
    have := monitorRun_terminal config evs (monitorStep config s MonitorEvent.closeCall)
      (by simp [monitorStep]) (by simp [monitorStep])
    exact ⟨this.2.1, this.2.2⟩
  · intro evs
    have := monitorRun_terminal config evs (monitorStep config s MonitorEvent.abortFire)
      (by simp [monitorStep]) (by simp [monitorStep])
    exact ⟨this.2.1, this.2.2⟩
  · simp [monitorStep]

/-- Witness for C3: on a fresh monitor with default configuration, a socket
close schedules one reconnect after 5000 ms, and after `close()` the sequence
close-event-then-timer-fire schedules nothing and leaves no timer. -/
theorem qq_monitor_reconnect_cancellation_witness :
    monitorStep {} {} MonitorEvent.socketClose =
      { reconnectTimer := some 5000, scheduled := 1 } ∧
    (monitorRun {} (monitorStep {} {} MonitorEvent.closeCall)
        [MonitorEvent.socketClose, MonitorEvent.timerFire]).scheduled = 0 ∧
    (monitorRun {} (monitorStep {} {} MonitorEvent.closeCall)
        [MonitorEvent.socketClose, MonitorEvent.timerFire]).reconnectTimer = Option.none := by
  have h := qq_monitor_reconnect_cancellation ({} : QQAccountConfig) ({} : MonitorState)
  have h1 := h.1 rfl rfl
  have h3 := h.2.2.1 [MonitorEvent.socketClose, MonitorEvent.timerFire]
  exact ⟨h1, h3.2, h3.1⟩

/-- A private wire message event carrying no `sender` object (reachable: the
monitor casts unvalidated frame JSON to the event type). -/
def qqSenderlessEvent : QQMessageEvent :=
  { message_type := "private"
    message_id := 1
    user_id := 123456789
    message := WireMessage.str "hi"
    sender := Option.none
    time := 1700000000 }

/-- C4 (failing input): `parseQQInboundMessage` is not total — on a wire event
with the `sender` object absent, `event.sender.nickname` raises a `TypeError`
instead of degrading to an empty or absent field, so no `InboundMessage` is
produced. -/
theorem qq_parse_throws_on_missing_sender :
    parseQQInboundMessage qqSenderlessEvent "default" =
      Except.error "TypeError: Cannot read properties of undefined (reading nickname)" := rfl

/-- A private wire message event whose sender has both a nickname and a group
card set. -/
def qqNickAndCardEvent : QQMessageEvent :=
  { message_type := "private"
    message_id := 2
    user_id := 7
    message := WireMessage.str "hello"
    sender := some { user_id := some 7, nickname := some "Nick", card := some "Card" }
    time := 1700000000 }

/-- C5 (counterexample): with both a nickname and a card present, the parsed
sender display name is the nickname, not the card override the claim says
wins. -/
theorem qq_senderName_card_does_not_win :
    (parseQQInboundMessage qqNickAndCardEvent "default").map (·.senderName) =
      Except.ok "Nick" ∧
    (Except.ok "Nick" : Except String String) ≠ Except.ok "Card" :=
  ⟨rfl, by simp⟩

/-- C5 (amended): the sender display name prefers the nickname, then the group
card, then the numeric sender id rendered as a string (the nickname, when
present and non-empty, wins over the card). -/
theorem qq_senderName_precedence (event : QQMessageEvent) (accountId : String)
    (s : WireSender) (hs : event.sender = some s) :
    (parseQQInboundMessage event accountId).map (·.senderName) =
      Except.ok
        (if s.nickname.getD "" ≠ "" then s.nickname.getD ""
         else if s.card.getD "" ≠ "" then s.card.getD ""
         else toString event.user_id) := by
  simp only [parseQQInboundMessage, hs, Except.map]
  cases hn : s.nickname <;> cases hc : s.card <;> simp [jsOrString]

/-- Witness for C5: a sender with nickname `Nick` and card `Card` gets display
name `Nick`, and one with a blank nickname and card `Card` gets `Card`. -/
theorem qq_senderName_precedence_witness :
    (parseQQInboundMessage qqNickAndCardEvent "default").map (·.senderName) =
      Except.ok "Nick" := by
  have h := qq_senderName_precedence qqNickAndCardEvent "default"
    { user_id := some 7, nickname := some "Nick", card := some "Card" } rfl
  rw [h]
  rfl

/-- A group wire message event from group 100 whose sender carries user id 0. -/
def qqZeroSenderGroupEvent : QQMessageEvent :=
  { message_type := "group"
    message_id := 3
    user_id := 55
    group_id := some 100
    message := WireMessage.str "hi"
    sender := some { user_id := some 0, nickname := some "A", card := Option.none }
    time := 1700000000 }

/-- C6 (counterexample): in a group event from group 100 whose sender user id
is present but equal to 0, the parsed peer id is the bare `100`, not the
composite `100:0` the claim requires for every present sender id (the source
guards with JS truthiness, `if (userId)`). -/
theorem qq_group_peer_id_zero_sender :
    resolveQQPeerId qqZeroSenderGroupEvent = ("100", true) ∧
    ("100" : String) ≠ "100:0" :=
  ⟨by decide, by decide⟩

/-- C6 (amended): for a group message event with non-zero group id `g`, the
peer id is `g:u` exactly when the sender user id is present and non-zero, and
the bare `g` when it is absent or zero; an event that is not a group message,
or whose group id is absent or zero, gets the top-level user id as peer id. -/
theorem qq_peer_id_rule (event : QQMessageEvent) :
    (∀ g, event.group_id = some g → g ≠ 0 → event.message_type = "group" →
      (∀ u, event.sender.bind (·.user_id) = some u → u ≠ 0 →
        resolveQQPeerId event = (toString g ++ ":" ++ toString u, true)) ∧
      ((event.sender.bind (·.user_id)).getD 0 = 0 →
        resolveQQPeerId event = (toString g, true))) ∧
    (event.message_type ≠ "group" ∨ event.group_id.getD 0 = 0 →
      resolveQQPeerId event = (toString event.user_id, false)) := by
  refine ⟨?_, ?_⟩
  · intro g hg hg0 hmt
    refine ⟨?_, ?_⟩
    · intro u hu hu0
      simp [resolveQQPeerId, buildQQGroupPeerId, hg, hg0, hmt, hu, hu0]
    · intro hu
      cases hsu : event.sender.bind (·.user_id) with
      | none => simp [resolveQQPeerId, buildQQGroupPeerId, hg, hg0, hmt, hsu]
      | some u =>
        rw [hsu] at hu
        simp only [Option.getD_some] at hu
        simp [resolveQQPeerId, buildQQGroupPeerId, hg, hg0, hmt, hsu, hu]
  · intro h
    cases hg : event.group_id with
    | none => simp [resolveQQPeerId, hg]
    | some g =>
      rcases h with h | h
      · simp [resolveQQPeerId, hg, h]
      · rw [hg] at h
        simp only [Option.getD_some] at h
        simp [resolveQQPeerId, hg, h]

/-- Witness for C6: group 100 with sender id 7 yields composite peer id
`100:7`; group 100 with sender id 0 yields the bare `100`; a private event
yields the top-level user id. -/
theorem qq_peer_id_rule_witness :
    resolveQQPeerId
        { message_type := "group", message_id := 4, user_id := 7, group_id := some 100,
          message := WireMessage.str "x",
          sender := some { user_id := some 7, nickname := some "Al", card := Option.none },
          time := 1700000000 } = ("100:7", true) ∧
    resolveQQPeerId qqZeroSenderGroupEvent = ("100", true) ∧
    resolveQQPeerId qqSenderlessEvent = ("123456789", false) := by
  refine ⟨?_, ?_, ?_⟩
  · have h := ((qq_peer_id_rule
      { message_type := "group", message_id := 4, user_id := 7, group_id := some 100,
        message := WireMessage.str "x",
        sender := some { user_id := some 7, nickname := some "Al", card := Option.none },
        time := 1700000000 }).1 100 rfl (by decide) rfl).1 7 rfl (by decide)
    rw [h]; rfl
  · have h := ((qq_peer_id_rule qqZeroSenderGroupEvent).1 100 rfl (by decide) rfl).2 rfl
    rw [h]; rfl
  · have h := (qq_peer_id_rule qqSenderlessEvent).2 (Or.inl (by decide))
    rw [h]; rfl

/-- Helper: a string starts with any of its own prefixes. -/
theorem jsStartsWith_append (p r : String) : jsStartsWith (p ++ r) p = true := by
  simp [jsStartsWith, String.data_append, List.isPrefixOf_iff_prefix]

/-- Helper: stripping a leading prefix that is there removes exactly it. -/
theorem stripLeading_append (p r : String) : stripLeading p (p ++ r) = r := by
  simp only [stripLeading, jsStartsWith_append, if_pos, String.data_append]
  rw [List.drop_left]

/-- Helper: appending a colon and a tail never returns the original string. -/
theorem ne_append_colon (a b : String) : a ++ ":" ++ b ≠ a := by
  intro h
  have hlen := congrArg String.length h
  rw [String.length_append, String.length_append] at hlen
  have h1 : (":" : String).length = 1 := rfl
  rw [h1] at hlen
  omega

/-- Helper: a target of the shape `group:X` routes to the group endpoint with
group id `X`. -/
theorem sendMessageQQ_group_prefix (x text : String) (replyToId mediaUrl : Option String) :
    sendMessageQQ ("group:" ++ x) text replyToId mediaUrl =
      sendGroupMessageQQ x text replyToId mediaUrl := by
  simp [sendMessageQQ, jsStartsWith_append, stripLeading_append]

/-- C7: `sendMessageQQ` routes to the group-send endpoint exactly when the
target starts with `group:` (the prefix is stripped to obtain the group id) or
matches the bare numeric pattern `^-?\d+$`; every other target is sent as a
private message with an optional leading `user:` stripped. -/
theorem qq_send_target_grammar (target text : String) (replyToId mediaUrl : Option String) :
    ((sendMessageQQ target text replyToId mediaUrl).endpoint = "send_group_msg" ↔
      (jsStartsWith target "group:" = true ∨ isNumericTarget target = true)) ∧
    (jsStartsWith target "group:" = true ∨ isNumericTarget target = true →
      sendMessageQQ target text replyToId mediaUrl =
        sendGroupMessageQQ (stripLeading "group:" target) text replyToId mediaUrl) ∧
    (¬(jsStartsWith target "group:" = true ∨ isNumericTarget target = true) →
      sendMessageQQ target text replyToId mediaUrl =
        sendPrivateMessageQQ (stripLeading "user:" target) text replyToId mediaUrl) := by
  cases hb : (jsStartsWith target "group:" || isNumericTarget target) with
  | true =>
    have hor : jsStartsWith target "group:" = true ∨ isNumericTarget target = true := by
      simpa [Bool.or_eq_true] using hb
    refine ⟨?_, fun _ => ?_, fun hc => absurd hor hc⟩
    · simp [sendMessageQQ, hb, sendGroupMessageQQ, hor]
    · simp [sendMessageQQ, hb]
  | false =>
    have hor : ¬(jsStartsWith target "group:" = true ∨ isNumericTarget target = true) := by
      intro hc
      rcases hc with hc | hc <;> rw [hc] at hb <;> simp at hb
    refine ⟨?_, fun hc => absurd hc hor, fun _ => ?_⟩
    · simp [sendMessageQQ, hb, sendPrivateMessageQQ, hor]
    · simp [sendMessageQQ, hb]

/-- Witness for C7: `group:555` and bare `555` both go to the group endpoint,
`user:42` goes to the private endpoint with the prefix stripped. -/
theorem qq_send_target_grammar_witness :
    sendMessageQQ "group:555" "ok" Option.none Option.none =
      sendGroupMessageQQ (stripLeading "group:" "group:555") "ok" Option.none Option.none ∧
    sendMessageQQ "555" "ok" Option.none Option.none =
      sendGroupMessageQQ (stripLeading "group:" "555") "ok" Option.none Option.none ∧
    sendMessageQQ "user:42" "ok" Option.none Option.none =
      sendPrivateMessageQQ (stripLeading "user:" "user:42") "ok" Option.none Option.none := by
  refine ⟨?_, ?_, ?_⟩
  · exact (qq_send_target_grammar "group:555" "ok" Option.none Option.none).2.1
      (Or.inl (by decide))
  · exact (qq_send_target_grammar "555" "ok" Option.none Option.none).2.1
      (Or.inr (by decide))
  · exact (qq_send_target_grammar "user:42" "ok" Option.none Option.none).2.2 (by decide)

/-- Helper: one callback flips `delivered` exactly when it is a successful
delivery. -/
theorem dispatchStep_delivered (st : DeliveryState) (cb : DispatchCallback) :
    (dispatchStep st cb).delivered = (st.delivered || isSuccessfulDelivery cb) := by
  cases cb with
  | deliver kind text res =>
    cases res with
    | none =>
      by_cases hk : kind = "final" ∧ text ≠ "" <;>
        simp [dispatchStep, isSuccessfulDelivery, hk]
    | some mid =>
      by_cases hk : kind = "final" ∧ text ≠ "" <;>
        by_cases hm : mid ≠ "" <;>
          simp [dispatchStep, isSuccessfulDelivery, hk, hm]
  | skip reason =>
    by_cases hr : reason ≠ "silent" <;> simp [dispatchStep, isSuccessfulDelivery, hr]
  | errorCb => simp [dispatchStep, isSuccessfulDelivery]

/-- Helper: one callback bumps the non-silent skip counter exactly when it is
a non-silent skip. -/
theorem dispatchStep_skipped (st : DeliveryState) (cb : DispatchCallback) :
    (dispatchStep st cb).skippedNonSilent =
      st.skippedNonSilent + (if isNonSilentSkip cb then 1 else 0) := by
  cases cb with
  | deliver kind text res =>
    cases res with
    | none =>
      by_cases hk : kind = "final" ∧ text ≠ "" <;>
        simp [dispatchStep, isNonSilentSkip, hk]
    | some mid =>
      by_cases hk : kind = "final" ∧ text ≠ "" <;>
        by_cases hm : mid ≠ "" <;>
          simp [dispatchStep, isNonSilentSkip, hk, hm]
  | skip reason =>
    by_cases hr : reason ≠ "silent" <;> simp [dispatchStep, isNonSilentSkip, hr]
  | errorCb => simp [dispatchStep, isNonSilentSkip]

/-- Helper: after the whole pipeline, `delivered` holds exactly when some
callback was a successful delivery. -/
theorem runDispatch_delivered (cbs : List DispatchCallback) :
    ∀ st : DeliveryState,
      (cbs.foldl dispatchStep st).delivered =
        (st.delivered || cbs.any isSuccessfulDelivery) := by
  induction cbs with
  | nil => intro st; simp
  | cons cb cbs ih =>
    intro st
    rw [List.foldl_cons, ih, dispatchStep_delivered]
    simp [Bool.or_assoc]

/-- Helper: after the whole pipeline, the non-silent skip counter counts the
non-silent skips. -/
theorem runDispatch_skipped (cbs : List DispatchCallback) :
    ∀ st : DeliveryState,
      (cbs.foldl dispatchStep st).skippedNonSilent =
        st.skippedNonSilent + cbs.countP isNonSilentSkip := by
  induction cbs with
  | nil => intro st; simp
  | cons cb cbs ih =>
    intro st
    rw [List.foldl_cons, ih, dispatchStep_skipped, List.countP_cons]
    omega

/-- C8: after the reply pipeline finishes, `dispatchQQMessage` sends the fixed
fallback text to the chat id exactly when no reply was successfully delivered
and at least one skip had a non-silent reason; with any successful delivery,
or with only silent skips, no fallback is sent. -/
theorem qq_dispatch_fallback_rule (chatId : String) (cbs : List DispatchCallback) :
    dispatchQQMessageFallback chatId cbs =
      if cbs.any isSuccessfulDelivery = false ∧ cbs.any isNonSilentSkip = true
      then some (sendMessageQQ chatId EMPTY_RESPONSE_FALLBACK Option.none Option.none)
      else Option.none := by
  have h1 := runDispatch_delivered cbs {}
  have h2 := runDispatch_skipped cbs {}
  have hcount : (cbs.countP isNonSilentSkip ≠ 0) ↔ cbs.any isNonSilentSkip = true := by
    rw [← Nat.pos_iff_ne_zero, List.countP_pos_iff, List.any_eq_true]
  unfold dispatchQQMessageFallback runDispatchCallbacks
  show (if (List.foldl dispatchStep {} cbs).delivered = false ∧
          (List.foldl dispatchStep {} cbs).skippedNonSilent ≠ 0
        then some (sendMessageQQ chatId EMPTY_RESPONSE_FALLBACK Option.none Option.none)
        else Option.none) = _
  rw [h1, h2]
  by_cases hA : cbs.any isSuccessfulDelivery = false <;>
    by_cases hB : cbs.any isNonSilentSkip = true <;>
      simp [hA, hB, hcount]

/-- C9 (counterexample): when the identity call succeeds with user id 10 but
the `get_status` fetch throws, the whole probe returns the failure result, not
an `ok` result with a degraded status (the status call sits inside the same
try/catch as the identity call). -/
theorem qq_probe_status_throw_fails_probe :
    probeQQ
        { login := ProbeLoginOutcome.okJson (some { user_id := some 10, nickname := some "Bot" })
          status := ProbeStatusOutcome.throwErr "fetch failed" } =
      QQProbeResult.err "fetch failed" := rfl

/-- C9 (amended): when the identity call succeeds with a truthy user id, a
status call that completes with parseable JSON — even one without a truthy
`online` flag — degrades `status` to a best-effort `"online"`/`"offline"`
while the probe still returns `ok`; but a status call that throws (network
error or unparseable body) makes the whole probe return the error. -/
theorem qq_probe_status_degradation (d : ProbeLoginData) (uid : Int)
    (hu : d.user_id = some uid) (h0 : uid ≠ 0) :
    (∀ online, probeQQ
        { login := ProbeLoginOutcome.okJson (some d)
          status := ProbeStatusOutcome.json online } =
      QQProbeResult.ok uid (d.nickname.getD "")
        (if online.getD false then "online" else "offline")) ∧
    (∀ msg, probeQQ
        { login := ProbeLoginOutcome.okJson (some d)
          status := ProbeStatusOutcome.throwErr msg } =
      QQProbeResult.err msg) := by
  constructor
  · intro online
    simp [probeQQ, hu, h0]
  · intro msg
    simp [probeQQ, hu, h0]

/-- Witness for C9: a status body with `online: false` degrades to `offline`
with the identity still reported. -/
theorem qq_probe_status_degradation_witness :
    probeQQ
        { login := ProbeLoginOutcome.okJson (some { user_id := some 10, nickname := some "Bot" })
          status := ProbeStatusOutcome.json (some false) } =
      QQProbeResult.ok 10 "Bot" "offline" := by
  have h := (qq_probe_status_degradation { user_id := some 10, nickname := some "Bot" } 10
    rfl (by decide)).1 (some false)
  rw [h]; rfl

/-- The wire event of the C10 scenario: a group message from group 100 sent by
user 7. -/
def qqGroupEvent : QQMessageEvent :=
  { message_type := "group"
    message_id := 4
    user_id := 7
    group_id := some 100
    message := WireMessage.str "x"
    sender := some { user_id := some 7, nickname := some "Al", card := Option.none }
    time := 1700000000 }

/-- A constant instantiation of the abstract routing collaborators. -/
def constContextEnv : ContextEnv :=
  { resolveAgentRoute := fun _ _ _ => { sessionKey := "sk", agentId := "main" }
    resolveThreadSessionKeys := fun k _ => k }

/-- C10 (amended): for a parsed group message with non-zero group id `g` and a
present non-zero sender id `u`, the context chat id is `group:` followed by
the composite peer id `g:u`, and sending a reply to that chat id hits the
group-send endpoint with `group_id` equal to the composite `g:u` — which is
never the bare group id. -/
theorem qq_group_reply_composite_target (env : ContextEnv) (event : QQMessageEvent)
    (accountId : String) (g u : Int) (s : WireSender) (m : QQInboundMessage)
    (hmt : event.message_type = "group") (hg : event.group_id = some g) (hg0 : g ≠ 0)
    (hs : event.sender = some s) (hu : s.user_id = some u) (hu0 : u ≠ 0)
    (hm : parseQQInboundMessage event accountId = Except.ok m) :
    (buildQQMessageContext env m accountId).chatId =
      "group:" ++ (toString g ++ ":" ++ toString u) ∧
    (∀ text replyToId,
      sendMessageQQ ((buildQQMessageContext env m accountId).chatId) text replyToId
          Option.none =
        sendGroupMessageQQ (toString g ++ ":" ++ toString u) text replyToId Option.none) ∧
    toString g ++ ":" ++ toString u ≠ toString g := by
  have hpeer : resolveQQPeerId event = (toString g ++ ":" ++ toString u, true) := by
    simp [resolveQQPeerId, buildQQGroupPeerId, hg, hg0, hmt, hs, hu, hu0]
  simp only [parseQQInboundMessage, hs, hpeer, Except.ok.injEq] at hm
  have hchat : (buildQQMessageContext env m accountId).chatId =
      "group:" ++ (toString g ++ ":" ++ toString u) := by
    rw [← hm]
    simp [buildQQMessageContext]
  refine ⟨hchat, ?_, ne_append_colon _ _⟩
  intro text replyToId
  rw [hchat, sendMessageQQ_group_prefix]

/-- The inbound message `parseQQInboundMessage` produces for `qqGroupEvent`. -/
def qqGroupParsed : QQInboundMessage :=
  { channel := "qq"
    accountId := "default"
    chatType := "group"
    peerId := "100:7"
    senderId := "7"
    senderName := "Al"
    text := "x"
    messageId := "4"
    timestamp := 1700000000000
    replyToId := Option.none
    groupId := some "100" }

/-- Witness for C10: for the group-100/sender-7 event, the chat id is
`group:100:7` and a reply send goes to the group endpoint with group id
`100:7`. -/
theorem qq_group_reply_composite_target_witness :
    (buildQQMessageContext constContextEnv qqGroupParsed "default").chatId = "group:100:7" ∧
    sendMessageQQ ((buildQQMessageContext constContextEnv qqGroupParsed "default").chatId)
        "ok" Option.none Option.none =
      sendGroupMessageQQ "100:7" "ok" Option.none Option.none := by
  have h := qq_group_reply_composite_target constContextEnv qqGroupEvent "default" 100 7
    { user_id := some 7, nickname := some "Al", card := Option.none } qqGroupParsed
    rfl rfl (by decide) rfl rfl (by decide) rfl
  refine ⟨?_, ?_⟩
  · rw [h.1]; rfl
  · rw [h.2.1 "ok" Option.none]; rfl

/-- The inbound message `parseQQInboundMessage` produces for
`qqZeroSenderGroupEvent` (the sender object is present with user id 0). -/
def qqZeroSenderParsed : QQInboundMessage :=
  { channel := "qq"
    accountId := "default"
    chatType := "group"
    peerId := "100"
    senderId := "55"
    senderName := "A"
    text := "hi"
    messageId := "3"
    timestamp := 1700000000000
    replyToId := Option.none
    groupId := some "100" }

/-- C10 (counterexample): for the group-100 message whose sender user id is
present but equal to 0, the parsed peer id is the bare `100`, the context chat
id is `group:100` rather than the composite `group:100:0` the claim requires
for every present sender id, and dispatching a reply to that chat id invokes
the group-send endpoint with `group_id` equal to the bare group id `100` —
exactly what the claim denies. -/
theorem qq_group_reply_zero_sender_bare_target :
    parseQQInboundMessage qqZeroSenderGroupEvent "default" =
      Except.ok qqZeroSenderParsed ∧
    (buildQQMessageContext constContextEnv qqZeroSenderParsed "default").chatId =
      "group:100" ∧
    sendMessageQQ ((buildQQMessageContext constContextEnv qqZeroSenderParsed "default").chatId)
        "ok" Option.none Option.none =
      sendGroupMessageQQ "100" "ok" Option.none Option.none ∧
    ("group:100" : String) ≠ "group:100:0" := by
  refine ⟨rfl, rfl, ?_, by decide⟩
  decide

end OpenClawQQ
